import Mathlib

/-!
Verification of the productstitch-pdf-service render gateway.

The definitions below are a shallow embedding of the diagnostic build of
the service (src/unnamed/part_001; the sibling snapshots src/server.js and
src/unnamed/part_000 are earlier iterations of the same file without the
style-injection and full launch-flag features). The browser engine is an
opaque collaborator: each awaited primitive of the engine is a field of
the Engine structure that either succeeds or fails with a message, and the
gateway functions return both their result and the chronological list of
engine events they performed, so ordering and cleanup properties can be
stated about traces.
-/

namespace PdfService

/-- A JSON value, as far as the handlers inspect one: the destructured
html field may be a string, a number, a boolean, null, or absent. -/
inductive Js where
  | str (s : String)
  | num (n : Int)
  | bool (b : Bool)
  | null
  | undef
  deriving DecidableEq, Repr

/-- JavaScript truthiness of the modelled values: the empty string, zero,
false, null and undefined are falsy. -/
def jsTruthy : Js → Bool
  | Js.str s => !s.isEmpty
  | Js.num n => n != 0
  | Js.bool b => b
  | Js.null => false
  | Js.undef => false

/-- The typeof value equals string test. -/
def jsIsString : Js → Bool
  | Js.str _ => true
  | _ => false

/-- The validation test of each handler: html is falsy, or typeof html is
not string. -/
def htmlInvalid (h : Js) : Bool := !jsTruthy h || !jsIsString h

/-- Extract the text of a string value; handlers only apply this after
validation has established the value is a nonempty string. -/
def jsToString : Js → String
  | Js.str s => s
  | _ => ""

/-- The margin object of a request: any subset of the four edges. -/
structure MarginPatch where
  top : Option String := none
  right : Option String := none
  bottom : Option String := none
  left : Option String := none
  deriving DecidableEq, Repr

/-- A fully resolved margin, one distance per edge. -/
structure MarginSet where
  top : String
  right : String
  bottom : String
  left : String
  deriving DecidableEq, Repr

/-- The margin passed to page.pdf: the object spread of the defaults
(top 12mm, right 12mm, bottom 16mm, left 12mm) with the request patch,
so each edge present in the patch overrides only its own default. -/
def resolveMargin (m : MarginPatch) : MarginSet :=
  { top := m.top.getD "12mm",
    right := m.right.getD "12mm",
    bottom := m.bottom.getD "16mm",
    left := m.left.getD "12mm" }

/-- The options object passed to the page.pdf call. -/
structure PdfOptions where
  format : String
  printBackground : Bool
  preferCSSPageSize : Bool
  margin : MarginSet
  displayHeaderFooter : Bool
  deriving DecidableEq, Repr

/-- The argument object of renderPdfFromHtml, with the defaults of its
destructuring pattern. -/
structure RenderArgs where
  html : String
  baseURL : Option String := none
  format : String := "Letter"
  margin : MarginPatch := {}
  filename : String := "document.pdf"
  forceSystemFonts : Bool := false
  deriving DecidableEq, Repr

/-- The fixed Chromium launch flags of launchBrowser. -/
def launchArgs : List String :=
  ["--no-sandbox", "--disable-dev-shm-usage", "--disable-gpu",
   "--font-render-hinting=none"]

/-- VISIBILITY_CSS: forces a white background and a fixed dark text
color on every element. -/
def VISIBILITY_CSS : String :=
  "\n  html,body\x7bbackground:#fff !important;\x7d\n  *\x7b-webkit-text-fill-color: initial !important; color:#0b1220 !important;\x7d\n"

/-- SYSTEM_FONT_CSS: forces a known available font family on common text
elements. -/
def SYSTEM_FONT_CSS : String :=
  "\n  body, h1, h2, h3, h4, p, li, blockquote \x7b font-family: Arial, sans-serif !important; \x7d\n"

/-- One engine interaction performed by the gateway, in the order the
source awaits them. -/
inductive Event where
  | launched (flags : List String)
  | pageOpened (baseURL : Option String)
  | debugAttached
  | mediaEmulated (media : String)
  | styleInjected (css : String)
  | contentSet (html : String) (waitUntil : String) (timeoutMs : Nat)
  | fontsWaited
  | printed (opts : PdfOptions)
  | shotTaken (fullPage : Bool) (imageType : String)
  | closed
  deriving DecidableEq, Repr

/-- The browser engine as an opaque collaborator: every primitive the
service awaits either succeeds or fails with a message, chosen by the
environment. -/
structure Engine where
  launch : Except String Unit
  newPage : Option String → Except String Unit
  emulateMedia : String → Except String Unit
  addStyle : String → Except String Unit
  setContent : String → String → Nat → Except String Unit
  fontsReady : Except String Unit
  printPdf : PdfOptions → Except String (List Nat)
  screenshot : Bool → String → Except String (List Nat)

/-- One awaited step inside the try block after the browser exists: on
failure the finally clause closes the browser and the error propagates;
on success the event is recorded and the rest of the block runs. -/
def tryStep (acc : List Event) (r : Except String Unit) (ev : Event)
    (rest : List Event → Except String (List Nat) × List Event) :
    Except String (List Nat) × List Event :=
  match r with
  | Except.error e => (Except.error e, acc ++ [Event.closed])
  | Except.ok _ => rest (acc ++ [ev])

/-- The tail of renderPdfFromHtml after the style injections: set the
content waiting for networkidle with a 30000 ms timeout, make the
best-effort font-readiness wait whose failure is swallowed, then print to
PDF with the fixed options and resolved margin; the finally clause closes
the browser on both outcomes of the print. -/
def renderTail (eng : Engine) (args : RenderArgs) (acc : List Event) :
    Except String (List Nat) × List Event :=
  tryStep acc (eng.setContent args.html "networkidle" 30000)
      (Event.contentSet args.html "networkidle" 30000) fun t =>
    let t2 := match eng.fontsReady with
      | Except.ok _ => t ++ [Event.fontsWaited]
      | Except.error _ => t
    let opts : PdfOptions :=
      { format := args.format,
        printBackground := true,
        preferCSSPageSize := true,
        margin := resolveMargin args.margin,
        displayHeaderFooter := false }
    match eng.printPdf opts with
    | Except.error e => (Except.error e, t2 ++ [Event.closed])
    | Except.ok bs => (Except.ok bs, t2 ++ [Event.printed opts, Event.closed])

/-- renderPdfFromHtml of the diagnostic build: launch Chromium with the
fixed flags, open a page bound to the optional baseURL, attach the debug
listeners, emulate screen media, inject the visibility override, inject
the system font override when forceSystemFonts is set, then run the
content-load and print tail. A failed launch leaves the browser variable
unset, so the finally clause closes nothing; after a successful launch
every exit path closes the browser. -/
def renderPdfFromHtml (eng : Engine) (args : RenderArgs) :
    Except String (List Nat) × List Event :=
  match eng.launch with
  | Except.error e => (Except.error e, [])
  | Except.ok _ =>
    tryStep [Event.launched launchArgs] (eng.newPage args.baseURL)
        (Event.pageOpened args.baseURL) fun t1 =>
      tryStep (t1 ++ [Event.debugAttached]) (eng.emulateMedia "screen")
          (Event.mediaEmulated "screen") fun t2 =>
        tryStep t2 (eng.addStyle VISIBILITY_CSS)
            (Event.styleInjected VISIBILITY_CSS) fun t3 =>
          if args.forceSystemFonts then
            tryStep t3 (eng.addStyle SYSTEM_FONT_CSS)
                (Event.styleInjected SYSTEM_FONT_CSS) (renderTail eng args)
          else renderTail eng args t3

/-- The tail of the pdf-debug pipeline after the style injections: same
content-load recipe as the PDF path, then a full-page png screenshot
instead of the print step; the finally clause closes the browser on both
outcomes. -/
def debugTail (eng : Engine) (html : String) (acc : List Event) :
    Except String (List Nat) × List Event :=
  tryStep acc (eng.setContent html "networkidle" 30000)
      (Event.contentSet html "networkidle" 30000) fun t =>
    let t2 := match eng.fontsReady with
      | Except.ok _ => t ++ [Event.fontsWaited]
      | Except.error _ => t
    match eng.screenshot true "png" with
    | Except.error e => (Except.error e, t2 ++ [Event.closed])
    | Except.ok bs => (Except.ok bs, t2 ++ [Event.shotTaken true "png", Event.closed])

/-- The inline pipeline of the pdf-debug endpoint: identical to
renderPdfFromHtml up to the content load, ending in a screenshot. -/
def renderDebugScreenshot (eng : Engine) (html : String)
    (baseURL : Option String) (forceSystemFonts : Bool) :
    Except String (List Nat) × List Event :=
  match eng.launch with
  | Except.error e => (Except.error e, [])
  | Except.ok _ =>
    tryStep [Event.launched launchArgs] (eng.newPage baseURL)
        (Event.pageOpened baseURL) fun t1 =>
      tryStep (t1 ++ [Event.debugAttached]) (eng.emulateMedia "screen")
          (Event.mediaEmulated "screen") fun t2 =>
        tryStep t2 (eng.addStyle VISIBILITY_CSS)
            (Event.styleInjected VISIBILITY_CSS) fun t3 =>
          if forceSystemFonts then
            tryStep t3 (eng.addStyle SYSTEM_FONT_CSS)
                (Event.styleInjected SYSTEM_FONT_CSS) (debugTail eng html)
          else debugTail eng html t3

/-- The body of an HTTP response, as far as the handlers construct one.
jsonShot stands for the debug JSON object; the source base64-encodes the
screenshot bytes for JSON transport, an encoding of the same bytes. -/
inductive ResponseBody where
  | bytes (bs : List Nat)
  | jsonError (msg : String) (details : Option String)
  | jsonShot (screenshotBytes : List Nat) (htmlLen : Nat)
  | text (s : String)
  deriving DecidableEq, Repr

/-- An HTTP response: status, the two headers the handlers set, body. -/
structure HttpResponse where
  status : Nat
  contentType : Option String := none
  contentDisposition : Option String := none
  body : ResponseBody
  deriving DecidableEq, Repr

/-- The JSON body of a POST to /pdf; a field is none when absent from
the request, in which case the destructuring default applies. -/
structure PdfRequestBody where
  html : Js := Js.undef
  baseURL : Option String := none
  format : Option String := none
  margin : MarginPatch := {}
  filename : Option String := none
  forceSystemFonts : Option Bool := none
  deriving DecidableEq, Repr

/-- The JSON body of a POST to /pdf-debug. -/
structure DebugRequestBody where
  html : Js := Js.undef
  baseURL : Option String := none
  forceSystemFonts : Option Bool := none
  deriving DecidableEq, Repr

/-- The error message of the 400 validation response. -/
def invalidHtmlMsg : String := "Missing or invalid \x27html\x27 field"

/-- Modelled from the spec: res.setHeader is platform (Node http) code
absent from this repository; per its documented validation a header
value may hold only tab, the printable ASCII range 0x20 to 0x7e, and
0x80 to 0xff; any other character (carriage return and line feed
included) makes setHeader throw ERR_INVALID_CHAR. -/
def validHeaderValueChar (c : Char) : Bool :=
  c = '\t' || (0x20 ≤ c.toNat && c.toNat ≤ 0x7e) ||
    (0x80 ≤ c.toNat && c.toNat ≤ 0xff)

/-- A header value every character of which setHeader accepts. -/
def headerValueValid (s : String) : Bool :=
  s.data.all validHeaderValueChar

/-- The message of the ERR_INVALID_CHAR error setHeader throws. -/
def invalidHeaderCharMsg (name : String) : String :=
  "Invalid character in header content [\"" ++ name ++ "\"]"

/-- The Content-Disposition value the /pdf handler interpolates: no
escaping or sanitization of the filename. -/
def dispoValue (filename : String) : String :=
  "inline; filename=\"" ++ filename ++ "\""

/-- The destructuring with defaults performed by the /pdf handler. -/
def pdfArgsOfBody (b : PdfRequestBody) : RenderArgs :=
  { html := jsToString b.html,
    baseURL := b.baseURL,
    format := b.format.getD "Letter",
    margin := b.margin,
    filename := b.filename.getD "document.pdf",
    forceSystemFonts := b.forceSystemFonts.getD false }

/-- The /pdf handler: validate html, render, then inside the same try
set the Content-Type header (a fixed valid value, never throwing) and
the Content-Disposition header; a filename interpolating to a header
value setHeader rejects makes that call throw, and the catch turns it,
like a render failure, into the 500 error payload. Otherwise the
response is 200 with the PDF bytes, or 400 without touching the
engine. -/
def postPdf (eng : Engine) (b : PdfRequestBody) : HttpResponse × List Event :=
  if htmlInvalid b.html then
    ({ status := 400, body := ResponseBody.jsonError invalidHtmlMsg none }, [])
  else
    match renderPdfFromHtml eng (pdfArgsOfBody b) with
    | (Except.ok pdf, tr) =>
      if headerValueValid (dispoValue (pdfArgsOfBody b).filename) then
        ({ status := 200,
           contentType := some "application/pdf",
           contentDisposition := some (dispoValue (pdfArgsOfBody b).filename),
           body := ResponseBody.bytes pdf }, tr)
      else
        ({ status := 500,
           body := ResponseBody.jsonError "PDF rendering failed"
             (some (invalidHeaderCharMsg "Content-Disposition")) }, tr)
    | (Except.error e, tr) =>
      ({ status := 500,
         body := ResponseBody.jsonError "PDF rendering failed" (some e) }, tr)

/-- The hardcoded HTML of the selftest endpoint. -/
def SELFTEST_HTML : String :=
  "<!doctype html><html><head><meta charset=\"utf-8\"><style>\n  body\x7bfont:16px/1.4 Arial,sans-serif\x7d h1\x7bcolor:#3a47ff\x7d\n  </style></head><body>\n  <h1>Selftest OK</h1><p>This PDF proves Chromium can render text.</p></body></html>"

/-- The /selftest handler: render the fixed document with system fonts
forced and the selftest filename; its header set sits inside the try
exactly as in /pdf, though its fixed value is always a valid header
value. -/
def getSelftest (eng : Engine) : HttpResponse × List Event :=
  match renderPdfFromHtml eng
      { html := SELFTEST_HTML, filename := "selftest.pdf",
        forceSystemFonts := true } with
  | (Except.ok pdf, tr) =>
    if headerValueValid (dispoValue "selftest.pdf") then
      ({ status := 200,
         contentType := some "application/pdf",
         contentDisposition := some (dispoValue "selftest.pdf"),
         body := ResponseBody.bytes pdf }, tr)
    else
      ({ status := 500,
         body := ResponseBody.jsonError "Selftest failed"
           (some (invalidHeaderCharMsg "Content-Disposition")) }, tr)
  | (Except.error e, tr) =>
    ({ status := 500,
       body := ResponseBody.jsonError "Selftest failed" (some e) }, tr)

/-- The /pdf-debug handler: validate html, run the screenshot pipeline,
answer 200 with the screenshot and html length, or 500, or 400 without
touching the engine. -/
def postPdfDebug (eng : Engine) (b : DebugRequestBody) :
    HttpResponse × List Event :=
  if htmlInvalid b.html then
    ({ status := 400, body := ResponseBody.jsonError invalidHtmlMsg none }, [])
  else
    match renderDebugScreenshot eng (jsToString b.html) b.baseURL
        (b.forceSystemFonts.getD false) with
    | (Except.ok png, tr) =>
      ({ status := 200,
         body := ResponseBody.jsonShot png (jsToString b.html).length }, tr)
    | (Except.error e, tr) =>
      ({ status := 500,
         body := ResponseBody.jsonError "pdf-debug failed" (some e) }, tr)

/-- A routed inbound request together with the size of its raw JSON
body in bytes. -/
inductive Route where
  | pdf (b : PdfRequestBody)
  | pdfDebug (b : DebugRequestBody)
  | selftest
  | healthz
  deriving Repr

/-- An inbound HTTP request before body parsing. -/
structure RawRequest where
  route : Route
  jsonBodyBytes : Nat
  deriving Repr

/-- Modelled from the spec: the JSON body-parsing layer is web-framework
library code absent from this repository; only its configuration, the
express.json call with limit 20mb, appears in the source. Per the
documented behavior of that layer, 20mb parses to 20 * 1024 * 1024
bytes, and a body over the limit is rejected with HTTP 413 before any
route handler runs. -/
def JSON_BODY_LIMIT : Nat := 20 * 1024 * 1024

/-- The application pipeline: the body-size check of the JSON parsing
middleware, then route dispatch. -/
def handleRequest (eng : Engine) (req : RawRequest) :
    HttpResponse × List Event :=
  if JSON_BODY_LIMIT < req.jsonBodyBytes then
    ({ status := 413,
       body := ResponseBody.jsonError "request entity too large" none }, [])
  else
    match req.route with
    | Route.pdf b => postPdf eng b
    | Route.pdfDebug b => postPdfDebug eng b
    | Route.selftest => getSelftest eng
    | Route.healthz => ({ status := 200, body := ResponseBody.text "ok" }, [])

/-- An engine on which every primitive succeeds; the PDF bytes begin
with the PDF signature, the screenshot bytes with the png signature. -/
def okEngine : Engine :=
  { launch := Except.ok (),
    newPage := fun _ => Except.ok (),
    emulateMedia := fun _ => Except.ok (),
    addStyle := fun _ => Except.ok (),
    setContent := fun _ _ _ => Except.ok (),
    fontsReady := Except.ok (),
    printPdf := fun _ => Except.ok [37, 80, 68, 70],
    screenshot := fun _ _ => Except.ok [137, 80, 78, 71] }

/-- An engine whose print step fails, as a malformed format value would
make it. -/
def printFailEngine : Engine :=
  { okEngine with printPdf := fun _ => Except.error "Format is invalid" }

/-- An engine whose content load times out. -/
def navFailEngine : Engine :=
  { okEngine with
    setContent := fun _ _ _ => Except.error "Timeout 30000ms exceeded" }

/-- The events of the pipeline head shared by the PDF and screenshot
paths: launch, page open, debug listeners, media emulation and the style
injections, for a given baseURL and forceSystemFonts flag. -/
def headEventsAt (baseURL : Option String) (fsf : Bool) : List Event :=
  [Event.launched launchArgs, Event.pageOpened baseURL, Event.debugAttached,
   Event.mediaEmulated "screen", Event.styleInjected VISIBILITY_CSS] ++
  (if fsf then [Event.styleInjected SYSTEM_FONT_CSS] else [])

/-- The options object renderTail passes to the print step. -/
def pdfOpts (args : RenderArgs) : PdfOptions :=
  { format := args.format,
    printBackground := true,
    preferCSSPageSize := true,
    margin := resolveMargin args.margin,
    displayHeaderFooter := false }

/-- The content-load event of a render of the given document. -/
def contentEv (html : String) : Event :=
  Event.contentSet html "networkidle" 30000

/-- A minimal valid render argument object. -/
def sampleArgs : RenderArgs := { html := "<p>x</p>" }

/-- A render argument object overriding only the top margin edge. -/
def sampleMarginArgs : RenderArgs :=
  { html := "<p>x</p>", margin := { top := some "5mm" } }

/-- A render argument object with system fonts forced. -/
def sampleFontArgs : RenderArgs :=
  { html := "<p>x</p>", forceSystemFonts := true }

/-- A minimal valid /pdf request body. -/
def sampleBody : PdfRequestBody := { html := Js.str "<p>x</p>" }

/-- A /pdf request body whose filename holds a double quote, a carriage
return and a newline. -/
def quotedBody : PdfRequestBody :=
  { html := Js.str "<p>x</p>", filename := some "we\"ird\r\n.pdf" }

/-- A /pdf request body whose filename holds a double quote but only
characters setHeader accepts. -/
def quoteOnlyBody : PdfRequestBody :=
  { html := Js.str "<p>x</p>", filename := some "we\"ird.pdf" }

/-- A /pdf request body with a plain filename. -/
def plainNameBody : PdfRequestBody :=
  { html := Js.str "<p>x</p>", filename := some "a.pdf" }

/-- A /pdf request body identical to plainNameBody except that its
filename holds a carriage return and a line feed. -/
def crlfNameBody : PdfRequestBody :=
  { html := Js.str "<p>x</p>", filename := some "a\r\n.pdf" }

/-- A /pdf-debug request body whose html is the empty string. -/
def emptyDebugBody : DebugRequestBody := { html := Js.str "" }

/-- A request one byte over the parser limit. -/
def bigRequest : RawRequest :=
  { route := Route.selftest, jsonBodyBytes := 20971521 }

theorem sys_ne_vis : SYSTEM_FONT_CSS ≠ VISIBILITY_CSS := by decide

theorem vis_ne_sys : VISIBILITY_CSS ≠ SYSTEM_FONT_CSS := by decide

/-- Case analysis of the tail of the PDF pipeline: the content load
fails, or it succeeds and the print step fails, or both succeed; the
font-readiness wait only adds an optional event to the trace. -/
theorem renderTail_cases (eng : Engine) (args : RenderArgs) (acc : List Event) :
    (∃ e, eng.setContent args.html "networkidle" 30000 = Except.error e ∧
      renderTail eng args acc = (Except.error e, acc ++ [Event.closed])) ∨
    (∃ e fw, eng.setContent args.html "networkidle" 30000 = Except.ok () ∧
      eng.printPdf (pdfOpts args) = Except.error e ∧
      (fw = ([] : List Event) ∨ fw = [Event.fontsWaited]) ∧
      renderTail eng args acc =
        (Except.error e, acc ++ [contentEv args.html] ++ fw ++ [Event.closed])) ∨
    (∃ bs fw, eng.setContent args.html "networkidle" 30000 = Except.ok () ∧
      eng.printPdf (pdfOpts args) = Except.ok bs ∧
      (fw = ([] : List Event) ∨ fw = [Event.fontsWaited]) ∧
      renderTail eng args acc =
        (Except.ok bs, acc ++ [contentEv args.html] ++ fw ++
          [Event.printed (pdfOpts args), Event.closed])) := by
  cases hc : eng.setContent args.html "networkidle" 30000 with
  | error e =>
    exact Or.inl ⟨e, rfl, by simp [renderTail, tryStep, hc]⟩
  | ok u =>
    cases u
    cases hfr : eng.fontsReady with
    | error e2 =>
      cases hp : eng.printPdf (pdfOpts args) with
      | error e =>
        refine Or.inr (Or.inl ⟨e, [], rfl, rfl, Or.inl rfl, ?_⟩)
        simp only [pdfOpts] at hp
        simp [renderTail, tryStep, hc, hfr, hp, pdfOpts, contentEv]
      | ok bs =>
        refine Or.inr (Or.inr ⟨bs, [], rfl, rfl, Or.inl rfl, ?_⟩)
        simp only [pdfOpts] at hp
        simp [renderTail, tryStep, hc, hfr, hp, pdfOpts, contentEv]
    | ok v =>
      cases v
      cases hp : eng.printPdf (pdfOpts args) with
      | error e =>
        refine Or.inr (Or.inl ⟨e, [Event.fontsWaited], rfl, rfl, Or.inr rfl, ?_⟩)
        simp only [pdfOpts] at hp
        simp [renderTail, tryStep, hc, hfr, hp, pdfOpts, contentEv]
      | ok bs =>
        refine Or.inr (Or.inr ⟨bs, [Event.fontsWaited], rfl, rfl, Or.inr rfl, ?_⟩)
        simp only [pdfOpts] at hp
        simp [renderTail, tryStep, hc, hfr, hp, pdfOpts, contentEv]

/-- Case analysis of the tail of the screenshot pipeline, analogous to
renderTail_cases. -/
theorem debugTail_cases (eng : Engine) (html : String) (acc : List Event) :
    (∃ e, eng.setContent html "networkidle" 30000 = Except.error e ∧
      debugTail eng html acc = (Except.error e, acc ++ [Event.closed])) ∨
    (∃ e fw, eng.setContent html "networkidle" 30000 = Except.ok () ∧
      eng.screenshot true "png" = Except.error e ∧
      (fw = ([] : List Event) ∨ fw = [Event.fontsWaited]) ∧
      debugTail eng html acc =
        (Except.error e, acc ++ [contentEv html] ++ fw ++ [Event.closed])) ∨
    (∃ bs fw, eng.setContent html "networkidle" 30000 = Except.ok () ∧
      eng.screenshot true "png" = Except.ok bs ∧
      (fw = ([] : List Event) ∨ fw = [Event.fontsWaited]) ∧
      debugTail eng html acc =
        (Except.ok bs, acc ++ [contentEv html] ++ fw ++
          [Event.shotTaken true "png", Event.closed])) := by
  cases hc : eng.setContent html "networkidle" 30000 with
  | error e =>
    exact Or.inl ⟨e, rfl, by simp [debugTail, tryStep, hc]⟩
  | ok u =>
    cases u
    cases hfr : eng.fontsReady with
    | error e2 =>
      cases hp : eng.screenshot true "png" with
      | error e =>
        refine Or.inr (Or.inl ⟨e, [], rfl, rfl, Or.inl rfl, ?_⟩)
        simp [debugTail, tryStep, hc, hfr, hp, contentEv]
      | ok bs =>
        refine Or.inr (Or.inr ⟨bs, [], rfl, rfl, Or.inl rfl, ?_⟩)
        simp [debugTail, tryStep, hc, hfr, hp, contentEv]
    | ok v =>
      cases v
      cases hp : eng.screenshot true "png" with
      | error e =>
        refine Or.inr (Or.inl ⟨e, [Event.fontsWaited], rfl, rfl, Or.inr rfl, ?_⟩)
        simp [debugTail, tryStep, hc, hfr, hp, contentEv]
      | ok bs =>
        refine Or.inr (Or.inr ⟨bs, [Event.fontsWaited], rfl, rfl, Or.inr rfl, ?_⟩)
        simp [debugTail, tryStep, hc, hfr, hp, contentEv]

/-- Full case analysis of renderPdfFromHtml: every exit path of the
pipeline, with the engine outcome that selects it and the exact result
and trace. -/
theorem render_cases (eng : Engine) (args : RenderArgs) :
    (∃ e, eng.launch = Except.error e ∧
      renderPdfFromHtml eng args = (Except.error e, [])) ∨
    (∃ e, eng.newPage args.baseURL = Except.error e ∧
      renderPdfFromHtml eng args =
        (Except.error e, [Event.launched launchArgs, Event.closed])) ∨
    (∃ e, eng.emulateMedia "screen" = Except.error e ∧
      renderPdfFromHtml eng args =
        (Except.error e,
         [Event.launched launchArgs, Event.pageOpened args.baseURL,
          Event.debugAttached, Event.closed])) ∨
    (∃ e, eng.addStyle VISIBILITY_CSS = Except.error e ∧
      renderPdfFromHtml eng args =
        (Except.error e,
         [Event.launched launchArgs, Event.pageOpened args.baseURL,
          Event.debugAttached, Event.mediaEmulated "screen", Event.closed])) ∨
    (args.forceSystemFonts = true ∧
      ∃ e, eng.addStyle SYSTEM_FONT_CSS = Except.error e ∧
        renderPdfFromHtml eng args =
          (Except.error e,
           [Event.launched launchArgs, Event.pageOpened args.baseURL,
            Event.debugAttached, Event.mediaEmulated "screen",
            Event.styleInjected VISIBILITY_CSS, Event.closed])) ∨
    (∃ e, eng.setContent args.html "networkidle" 30000 = Except.error e ∧
      renderPdfFromHtml eng args =
        (Except.error e,
         headEventsAt args.baseURL args.forceSystemFonts ++ [Event.closed])) ∨
    (∃ e fw, eng.setContent args.html "networkidle" 30000 = Except.ok () ∧
      eng.printPdf (pdfOpts args) = Except.error e ∧
      (fw = ([] : List Event) ∨ fw = [Event.fontsWaited]) ∧
      renderPdfFromHtml eng args =
        (Except.error e,
         headEventsAt args.baseURL args.forceSystemFonts ++
           [contentEv args.html] ++ fw ++ [Event.closed])) ∨
    (∃ bs fw, eng.setContent args.html "networkidle" 30000 = Except.ok () ∧
      eng.printPdf (pdfOpts args) = Except.ok bs ∧
      (fw = ([] : List Event) ∨ fw = [Event.fontsWaited]) ∧
      renderPdfFromHtml eng args =
        (Except.ok bs,
         headEventsAt args.baseURL args.forceSystemFonts ++
           [contentEv args.html] ++ fw ++
           [Event.printed (pdfOpts args), Event.closed])) := by
  cases hl : eng.launch with
  | error e => exact Or.inl ⟨e, rfl, by simp [renderPdfFromHtml, hl]⟩
  | ok u =>
    cases u
    cases hn : eng.newPage args.baseURL with
    | error e =>
      refine Or.inr (Or.inl ⟨e, rfl, ?_⟩)
      simp [renderPdfFromHtml, tryStep, hl, hn]
    | ok un =>
      cases un
      cases hm : eng.emulateMedia "screen" with
      | error e =>
        refine Or.inr (Or.inr (Or.inl ⟨e, rfl, ?_⟩))
        simp [renderPdfFromHtml, tryStep, hl, hn, hm]
      | ok um =>
        cases um
        cases hv : eng.addStyle VISIBILITY_CSS with
        | error e =>
          refine Or.inr (Or.inr (Or.inr (Or.inl ⟨e, rfl, ?_⟩)))
          simp [renderPdfFromHtml, tryStep, hl, hn, hm, hv]
        | ok uv =>
          cases uv
          cases hf : args.forceSystemFonts with
          | true =>
            cases hs : eng.addStyle SYSTEM_FONT_CSS with
            | error e =>
              refine Or.inr (Or.inr (Or.inr (Or.inr (Or.inl ⟨rfl, e, rfl, ?_⟩))))
              simp [renderPdfFromHtml, tryStep, hl, hn, hm, hv, hf, hs]
            | ok us =>
              cases us
              have hr : renderPdfFromHtml eng args =
                  renderTail eng args (headEventsAt args.baseURL true) := by
                simp [renderPdfFromHtml, tryStep, headEventsAt, hl, hn, hm, hv, hf, hs]
              rcases renderTail_cases eng args (headEventsAt args.baseURL true) with
                ⟨e, hc, ht⟩ | ⟨e, fw, hc, hp, hfw, ht⟩ | ⟨bs, fw, hc, hp, hfw, ht⟩
              · exact Or.inr (Or.inr (Or.inr (Or.inr (Or.inr (Or.inl
                  ⟨e, hc, by rw [hr, ht]⟩)))))
              · exact Or.inr (Or.inr (Or.inr (Or.inr (Or.inr (Or.inr (Or.inl
                  ⟨e, fw, hc, hp, hfw, by rw [hr, ht]⟩))))))
              · exact Or.inr (Or.inr (Or.inr (Or.inr (Or.inr (Or.inr (Or.inr
                  ⟨bs, fw, hc, hp, hfw, by rw [hr, ht]⟩))))))
          | false =>
            have hr : renderPdfFromHtml eng args =
                renderTail eng args (headEventsAt args.baseURL false) := by
              simp [renderPdfFromHtml, tryStep, headEventsAt, hl, hn, hm, hv, hf]
            rcases renderTail_cases eng args (headEventsAt args.baseURL false) with
              ⟨e, hc, ht⟩ | ⟨e, fw, hc, hp, hfw, ht⟩ | ⟨bs, fw, hc, hp, hfw, ht⟩
            · exact Or.inr (Or.inr (Or.inr (Or.inr (Or.inr (Or.inl
                ⟨e, hc, by rw [hr, ht]⟩)))))
            · exact Or.inr (Or.inr (Or.inr (Or.inr (Or.inr (Or.inr (Or.inl
                ⟨e, fw, hc, hp, hfw, by rw [hr, ht]⟩))))))
            · exact Or.inr (Or.inr (Or.inr (Or.inr (Or.inr (Or.inr (Or.inr
                ⟨bs, fw, hc, hp, hfw, by rw [hr, ht]⟩))))))

/-- Full case analysis of the pdf-debug pipeline, analogous to
render_cases. -/
theorem debug_cases (eng : Engine) (html : String) (bu : Option String)
    (fsf : Bool) :
    (∃ e, eng.launch = Except.error e ∧
      renderDebugScreenshot eng html bu fsf = (Except.error e, [])) ∨
    (∃ e, eng.newPage bu = Except.error e ∧
      renderDebugScreenshot eng html bu fsf =
        (Except.error e, [Event.launched launchArgs, Event.closed])) ∨
    (∃ e, eng.emulateMedia "screen" = Except.error e ∧
      renderDebugScreenshot eng html bu fsf =
        (Except.error e,
         [Event.launched launchArgs, Event.pageOpened bu,
          Event.debugAttached, Event.closed])) ∨
    (∃ e, eng.addStyle VISIBILITY_CSS = Except.error e ∧
      renderDebugScreenshot eng html bu fsf =
        (Except.error e,
         [Event.launched launchArgs, Event.pageOpened bu,
          Event.debugAttached, Event.mediaEmulated "screen", Event.closed])) ∨
    (fsf = true ∧
      ∃ e, eng.addStyle SYSTEM_FONT_CSS = Except.error e ∧
        renderDebugScreenshot eng html bu fsf =
          (Except.error e,
           [Event.launched launchArgs, Event.pageOpened bu,
            Event.debugAttached, Event.mediaEmulated "screen",
            Event.styleInjected VISIBILITY_CSS, Event.closed])) ∨
    (∃ e, eng.setContent html "networkidle" 30000 = Except.error e ∧
      renderDebugScreenshot eng html bu fsf =
        (Except.error e, headEventsAt bu fsf ++ [Event.closed])) ∨
    (∃ e fw, eng.setContent html "networkidle" 30000 = Except.ok () ∧
      eng.screenshot true "png" = Except.error e ∧
      (fw = ([] : List Event) ∨ fw = [Event.fontsWaited]) ∧
      renderDebugScreenshot eng html bu fsf =
        (Except.error e,
         headEventsAt bu fsf ++ [contentEv html] ++ fw ++ [Event.closed])) ∨
    (∃ bs fw, eng.setContent html "networkidle" 30000 = Except.ok () ∧
      eng.screenshot true "png" = Except.ok bs ∧
      (fw = ([] : List Event) ∨ fw = [Event.fontsWaited]) ∧
      renderDebugScreenshot eng html bu fsf =
        (Except.ok bs,
         headEventsAt bu fsf ++ [contentEv html] ++ fw ++
           [Event.shotTaken true "png", Event.closed])) := by
  cases hl : eng.launch with
  | error e => exact Or.inl ⟨e, rfl, by simp [renderDebugScreenshot, hl]⟩
  | ok u =>
    cases u
    cases hn : eng.newPage bu with
    | error e =>
      refine Or.inr (Or.inl ⟨e, rfl, ?_⟩)
      simp [renderDebugScreenshot, tryStep, hl, hn]
    | ok un =>
      cases un
      cases hm : eng.emulateMedia "screen" with
      | error e =>
        refine Or.inr (Or.inr (Or.inl ⟨e, rfl, ?_⟩))
        simp [renderDebugScreenshot, tryStep, hl, hn, hm]
      | ok um =>
        cases um
        cases hv : eng.addStyle VISIBILITY_CSS with
        | error e =>
          refine Or.inr (Or.inr (Or.inr (Or.inl ⟨e, rfl, ?_⟩)))
          simp [renderDebugScreenshot, tryStep, hl, hn, hm, hv]
        | ok uv =>
          cases uv
          cases hf : fsf with
          | true =>
            cases hs : eng.addStyle SYSTEM_FONT_CSS with
            | error e =>
              refine Or.inr (Or.inr (Or.inr (Or.inr (Or.inl ⟨rfl, e, rfl, ?_⟩))))
              simp [renderDebugScreenshot, tryStep, hl, hn, hm, hv, hs]
            | ok us =>
              cases us
              have hr : renderDebugScreenshot eng html bu true =
                  debugTail eng html (headEventsAt bu true) := by
                simp [renderDebugScreenshot, tryStep, headEventsAt, hl, hn, hm, hv, hs]
              rcases debugTail_cases eng html (headEventsAt bu true) with
                ⟨e, hc, ht⟩ | ⟨e, fw, hc, hp, hfw, ht⟩ | ⟨bs, fw, hc, hp, hfw, ht⟩
              · exact Or.inr (Or.inr (Or.inr (Or.inr (Or.inr (Or.inl
                  ⟨e, hc, by rw [hr, ht]⟩)))))
              · exact Or.inr (Or.inr (Or.inr (Or.inr (Or.inr (Or.inr (Or.inl
                  ⟨e, fw, hc, hp, hfw, by rw [hr, ht]⟩))))))
              · exact Or.inr (Or.inr (Or.inr (Or.inr (Or.inr (Or.inr (Or.inr
                  ⟨bs, fw, hc, hp, hfw, by rw [hr, ht]⟩))))))
          | false =>
            have hr : renderDebugScreenshot eng html bu false =
                debugTail eng html (headEventsAt bu false) := by
              simp [renderDebugScreenshot, tryStep, headEventsAt, hl, hn, hm, hv]
            rcases debugTail_cases eng html (headEventsAt bu false) with
              ⟨e, hc, ht⟩ | ⟨e, fw, hc, hp, hfw, ht⟩ | ⟨bs, fw, hc, hp, hfw, ht⟩
            · exact Or.inr (Or.inr (Or.inr (Or.inr (Or.inr (Or.inl
                ⟨e, hc, by rw [hr, ht]⟩)))))
            · exact Or.inr (Or.inr (Or.inr (Or.inr (Or.inr (Or.inr (Or.inl
                ⟨e, fw, hc, hp, hfw, by rw [hr, ht]⟩))))))
            · exact Or.inr (Or.inr (Or.inr (Or.inr (Or.inr (Or.inr (Or.inr
                ⟨bs, fw, hc, hp, hfw, by rw [hr, ht]⟩))))))

theorem last_closed (l : List Event) :
    (l ++ [Event.closed]).getLast? = some Event.closed := by
  rw [List.getLast?_append_cons]; rfl

theorem last_closed2 (l : List Event) (a : Event) :
    (l ++ [a, Event.closed]).getLast? = some Event.closed := by
  rw [List.getLast?_append_cons]; rfl

/-- C2: every browser session started for a render is closed before the
operation completes: for both the PDF pipeline and the screenshot
pipeline, whenever the trace records a launch, the trace ends with the
close event, on success and on every failure alike. -/
theorem browser_closed_on_every_exit (eng : Engine) (args : RenderArgs)
    (html : String) (bu : Option String) (fsf : Bool) :
    (∀ fl, Event.launched fl ∈ (renderPdfFromHtml eng args).2 →
      (renderPdfFromHtml eng args).2.getLast? = some Event.closed) ∧
    (∀ fl, Event.launched fl ∈ (renderDebugScreenshot eng html bu fsf).2 →
      (renderDebugScreenshot eng html bu fsf).2.getLast? = some Event.closed) := by
  constructor
  · intro fl hm
    rcases render_cases eng args with
      ⟨e, _, ht⟩ | ⟨e, _, ht⟩ | ⟨e, _, ht⟩ | ⟨e, _, ht⟩ | ⟨_, e, _, ht⟩ |
      ⟨e, _, ht⟩ | ⟨e, fw, _, _, _, ht⟩ | ⟨bs, fw, _, _, _, ht⟩
    · rw [ht] at hm; simp at hm
    · rw [ht]; rfl
    · rw [ht]; rfl
    · rw [ht]; rfl
    · rw [ht]; rfl
    · rw [ht]; exact last_closed _
    · rw [ht]; exact last_closed _
    · rw [ht]; exact last_closed2 _ _
  · intro fl hm
    rcases debug_cases eng html bu fsf with
      ⟨e, _, ht⟩ | ⟨e, _, ht⟩ | ⟨e, _, ht⟩ | ⟨e, _, ht⟩ | ⟨_, e, _, ht⟩ |
      ⟨e, _, ht⟩ | ⟨e, fw, _, _, _, ht⟩ | ⟨bs, fw, _, _, _, ht⟩
    · rw [ht] at hm; simp at hm
    · rw [ht]; rfl
    · rw [ht]; rfl
    · rw [ht]; rfl
    · rw [ht]; rfl
    · rw [ht]; exact last_closed _
    · rw [ht]; exact last_closed _
    · rw [ht]; exact last_closed2 _ _

theorem browser_closed_on_every_exit_witness :
    ((renderPdfFromHtml printFailEngine sampleArgs).2.getLast? =
      some Event.closed) ∧
    ((renderDebugScreenshot printFailEngine "<p>x</p>" none false).2.getLast? =
      some Event.closed) :=
  ⟨(browser_closed_on_every_exit printFailEngine sampleArgs "<p>x</p>" none
      false).1 launchArgs (by decide),
   (browser_closed_on_every_exit printFailEngine sampleArgs "<p>x</p>" none
      false).2 launchArgs (by decide)⟩

/-- Every launch event recorded by the PDF pipeline carries the fixed
flag list. -/
theorem launched_mem_render (eng : Engine) (args : RenderArgs)
    (fl : List String)
    (hm : Event.launched fl ∈ (renderPdfFromHtml eng args).2) :
    fl = launchArgs := by
  rcases render_cases eng args with
    ⟨e, _, ht⟩ | ⟨e, _, ht⟩ | ⟨e, _, ht⟩ | ⟨e, _, ht⟩ | ⟨_, e, _, ht⟩ |
    ⟨e, _, ht⟩ | ⟨e, fw, _, _, hfw, ht⟩ | ⟨bs, fw, _, _, hfw, ht⟩
  · rw [ht] at hm; simp at hm
  · rw [ht] at hm; simpa using hm
  · rw [ht] at hm; simpa using hm
  · rw [ht] at hm; simpa using hm
  · rw [ht] at hm; simpa using hm
  · rw [ht] at hm
    cases hf2 : args.forceSystemFonts <;>
      simpa [headEventsAt, hf2] using hm
  · rcases hfw with rfl | rfl <;> rw [ht] at hm <;>
      cases hf2 : args.forceSystemFonts <;>
        simpa [headEventsAt, hf2, contentEv] using hm
  · rcases hfw with rfl | rfl <;> rw [ht] at hm <;>
      cases hf2 : args.forceSystemFonts <;>
        simpa [headEventsAt, hf2, contentEv] using hm

/-- Every launch event recorded by the screenshot pipeline carries the
fixed flag list. -/
theorem launched_mem_debug (eng : Engine) (html : String) (bu : Option String)
    (fsf : Bool) (fl : List String)
    (hm : Event.launched fl ∈ (renderDebugScreenshot eng html bu fsf).2) :
    fl = launchArgs := by
  rcases debug_cases eng html bu fsf with
    ⟨e, _, ht⟩ | ⟨e, _, ht⟩ | ⟨e, _, ht⟩ | ⟨e, _, ht⟩ | ⟨_, e, _, ht⟩ |
    ⟨e, _, ht⟩ | ⟨e, fw, _, _, hfw, ht⟩ | ⟨bs, fw, _, _, hfw, ht⟩
  · rw [ht] at hm; simp at hm
  · rw [ht] at hm; simpa using hm
  · rw [ht] at hm; simpa using hm
  · rw [ht] at hm; simpa using hm
  · rw [ht] at hm; simpa using hm
  · rw [ht] at hm
    cases hf2 : fsf <;> simpa [headEventsAt, hf2] using hm
  · rcases hfw with rfl | rfl <;> rw [ht] at hm <;>
      cases hf2 : fsf <;> simpa [headEventsAt, hf2, contentEv] using hm
  · rcases hfw with rfl | rfl <;> rw [ht] at hm <;>
      cases hf2 : fsf <;> simpa [headEventsAt, hf2, contentEv] using hm

/-- C6: every browser launch performed for a request, on the PDF path or
the screenshot path, uses exactly the fixed safety flag list: sandbox
disabled, shared-memory dependency disabled, GPU disabled, font hinting
disabled. -/
theorem launch_flags_fixed (eng : Engine) (args : RenderArgs) (html : String)
    (bu : Option String) (fsf : Bool) (fl : List String) :
    (Event.launched fl ∈ (renderPdfFromHtml eng args).2 →
      fl = ["--no-sandbox", "--disable-dev-shm-usage", "--disable-gpu",
            "--font-render-hinting=none"]) ∧
    (Event.launched fl ∈ (renderDebugScreenshot eng html bu fsf).2 →
      fl = ["--no-sandbox", "--disable-dev-shm-usage", "--disable-gpu",
            "--font-render-hinting=none"]) :=
  ⟨fun hm => launched_mem_render eng args fl hm,
   fun hm => launched_mem_debug eng html bu fsf fl hm⟩

theorem launch_flags_fixed_witness :
    Event.launched launchArgs ∈ (renderPdfFromHtml okEngine sampleArgs).2 ∧
    launchArgs = ["--no-sandbox", "--disable-dev-shm-usage", "--disable-gpu",
                  "--font-render-hinting=none"] :=
  ⟨by decide,
   (launch_flags_fixed okEngine sampleArgs "<p>x</p>" none false launchArgs).1
     (by decide)⟩

/-- C5: the print step of every PDF render uses a margin whose edges are
the request margin edges where present and the defaults top 12mm, right
12mm, bottom 16mm, left 12mm where absent, each edge independently. -/
theorem margin_defaults_each_edge_overridable (eng : Engine)
    (args : RenderArgs) (opts : PdfOptions)
    (hm : Event.printed opts ∈ (renderPdfFromHtml eng args).2) :
    opts.margin.top = args.margin.top.getD "12mm" ∧
    opts.margin.right = args.margin.right.getD "12mm" ∧
    opts.margin.bottom = args.margin.bottom.getD "16mm" ∧
    opts.margin.left = args.margin.left.getD "12mm" := by
  rcases render_cases eng args with
    ⟨e, _, ht⟩ | ⟨e, _, ht⟩ | ⟨e, _, ht⟩ | ⟨e, _, ht⟩ | ⟨_, e, _, ht⟩ |
    ⟨e, _, ht⟩ | ⟨e, fw, _, _, hfw, ht⟩ | ⟨bs, fw, _, _, hfw, ht⟩
  · rw [ht] at hm; simp at hm
  · rw [ht] at hm; simp at hm
  · rw [ht] at hm; simp at hm
  · rw [ht] at hm; simp at hm
  · rw [ht] at hm; simp at hm
  · rw [ht] at hm
    cases hf2 : args.forceSystemFonts <;> simp [headEventsAt, hf2] at hm
  · rcases hfw with rfl | rfl <;> rw [ht] at hm <;>
      cases hf2 : args.forceSystemFonts <;>
        simp [headEventsAt, hf2, contentEv] at hm
  · rcases hfw with rfl | rfl <;> rw [ht] at hm <;>
      cases hf2 : args.forceSystemFonts <;>
        simp [headEventsAt, hf2, contentEv] at hm <;>
          subst hm <;> simp [pdfOpts, resolveMargin]

theorem margin_defaults_each_edge_overridable_witness :
    (pdfOpts sampleMarginArgs).margin.top =
      sampleMarginArgs.margin.top.getD "12mm" ∧
    (pdfOpts sampleMarginArgs).margin.right =
      sampleMarginArgs.margin.right.getD "12mm" ∧
    (pdfOpts sampleMarginArgs).margin.bottom =
      sampleMarginArgs.margin.bottom.getD "16mm" ∧
    (pdfOpts sampleMarginArgs).margin.left =
      sampleMarginArgs.margin.left.getD "12mm" :=
  margin_defaults_each_edge_overridable okEngine sampleMarginArgs
    (pdfOpts sampleMarginArgs) (by decide)

/-- A system-font injection event in a PDF render trace forces the flag
to have been set. -/
theorem render_sys_mem (eng : Engine) (args : RenderArgs)
    (hm : Event.styleInjected SYSTEM_FONT_CSS ∈ (renderPdfFromHtml eng args).2) :
    args.forceSystemFonts = true := by
  rcases render_cases eng args with
    ⟨e, _, ht⟩ | ⟨e, _, ht⟩ | ⟨e, _, ht⟩ | ⟨e, _, ht⟩ | ⟨hf, e, _, ht⟩ |
    ⟨e, _, ht⟩ | ⟨e, fw, _, _, hfw, ht⟩ | ⟨bs, fw, _, _, hfw, ht⟩
  · rw [ht] at hm; simp at hm
  · rw [ht] at hm; simp at hm
  · rw [ht] at hm; simp at hm
  · rw [ht] at hm; simp at hm
  · exact hf
  · cases hf2 : args.forceSystemFonts
    · rw [ht] at hm; simp [headEventsAt, hf2, sys_ne_vis] at hm
    · rfl
  · cases hf2 : args.forceSystemFonts
    · rcases hfw with rfl | rfl <;> rw [ht] at hm <;>
        simp [headEventsAt, hf2, sys_ne_vis, contentEv] at hm
    · rfl
  · cases hf2 : args.forceSystemFonts
    · rcases hfw with rfl | rfl <;> rw [ht] at hm <;>
        simp [headEventsAt, hf2, sys_ne_vis, contentEv] at hm
    · rfl

/-- A system-font injection event in a screenshot trace forces the flag
to have been set. -/
theorem debug_sys_mem (eng : Engine) (html : String) (bu : Option String)
    (fsf : Bool)
    (hm : Event.styleInjected SYSTEM_FONT_CSS ∈
      (renderDebugScreenshot eng html bu fsf).2) :
    fsf = true := by
  rcases debug_cases eng html bu fsf with
    ⟨e, _, ht⟩ | ⟨e, _, ht⟩ | ⟨e, _, ht⟩ | ⟨e, _, ht⟩ | ⟨hf, e, _, ht⟩ |
    ⟨e, _, ht⟩ | ⟨e, fw, _, _, hfw, ht⟩ | ⟨bs, fw, _, _, hfw, ht⟩
  · rw [ht] at hm; simp at hm
  · rw [ht] at hm; simp at hm
  · rw [ht] at hm; simp at hm
  · rw [ht] at hm; simp at hm
  · exact hf
  · cases hf2 : fsf
    · rw [ht] at hm; simp [headEventsAt, hf2, sys_ne_vis] at hm
    · rfl
  · cases hf2 : fsf
    · rcases hfw with rfl | rfl <;> rw [ht] at hm <;>
        simp [headEventsAt, hf2, sys_ne_vis, contentEv] at hm
    · rfl
  · cases hf2 : fsf
    · rcases hfw with rfl | rfl <;> rw [ht] at hm <;>
        simp [headEventsAt, hf2, sys_ne_vis, contentEv] at hm
    · rfl

/-- In every PDF render whose trace loads content, the visibility
override, then the font override exactly when the flag is set, were
injected before the content load, in order. -/
theorem render_content_sublist (eng : Engine) (args : RenderArgs)
    (h wu : String) (tm : Nat)
    (hm : Event.contentSet h wu tm ∈ (renderPdfFromHtml eng args).2) :
    (Event.styleInjected VISIBILITY_CSS ::
      ((if args.forceSystemFonts then [Event.styleInjected SYSTEM_FONT_CSS]
        else []) ++ [Event.contentSet h wu tm])).Sublist
      (renderPdfFromHtml eng args).2 := by
  rcases render_cases eng args with
    ⟨e, _, ht⟩ | ⟨e, _, ht⟩ | ⟨e, _, ht⟩ | ⟨e, _, ht⟩ | ⟨hf, e, _, ht⟩ |
    ⟨e, _, ht⟩ | ⟨e, fw, _, _, hfw, ht⟩ | ⟨bs, fw, _, _, hfw, ht⟩
  · rw [ht] at hm; simp at hm
  · rw [ht] at hm; simp at hm
  · rw [ht] at hm; simp at hm
  · rw [ht] at hm; simp at hm
  · rw [ht] at hm; simp at hm
  · rw [ht] at hm
    cases hf2 : args.forceSystemFonts <;> simp [headEventsAt, hf2] at hm
  · rcases hfw with rfl | rfl <;>
      cases hf2 : args.forceSystemFonts <;>
        (rw [ht] at hm
         simp [headEventsAt, hf2, contentEv] at hm
         obtain ⟨rfl, rfl, rfl⟩ := hm
         rw [ht, hf2]
         simp only [headEventsAt, contentEv, if_true, if_false,
           List.cons_append, List.nil_append, List.append_assoc]
         repeat
           first
           | exact List.nil_sublist _
           | refine List.Sublist.cons₂ _ ?_
           | refine List.Sublist.cons _ ?_)
  · rcases hfw with rfl | rfl <;>
      cases hf2 : args.forceSystemFonts <;>
        (rw [ht] at hm
         simp [headEventsAt, hf2, contentEv] at hm
         obtain ⟨rfl, rfl, rfl⟩ := hm
         rw [ht, hf2]
         simp only [headEventsAt, contentEv, if_true, if_false,
           List.cons_append, List.nil_append, List.append_assoc]
         repeat
           first
           | exact List.nil_sublist _
           | refine List.Sublist.cons₂ _ ?_
           | refine List.Sublist.cons _ ?_)

/-- Screenshot-path analogue of render_content_sublist. -/
theorem debug_content_sublist (eng : Engine) (html : String)
    (bu : Option String) (fsf : Bool) (h wu : String) (tm : Nat)
    (hm : Event.contentSet h wu tm ∈
      (renderDebugScreenshot eng html bu fsf).2) :
    (Event.styleInjected VISIBILITY_CSS ::
      ((if fsf then [Event.styleInjected SYSTEM_FONT_CSS] else []) ++
        [Event.contentSet h wu tm])).Sublist
      (renderDebugScreenshot eng html bu fsf).2 := by
  rcases debug_cases eng html bu fsf with
    ⟨e, _, ht⟩ | ⟨e, _, ht⟩ | ⟨e, _, ht⟩ | ⟨e, _, ht⟩ | ⟨hf, e, _, ht⟩ |
    ⟨e, _, ht⟩ | ⟨e, fw, _, _, hfw, ht⟩ | ⟨bs, fw, _, _, hfw, ht⟩
  · rw [ht] at hm; simp at hm
  · rw [ht] at hm; simp at hm
  · rw [ht] at hm; simp at hm
  · rw [ht] at hm; simp at hm
  · rw [ht] at hm; simp at hm
  · rw [ht] at hm
    cases hf2 : fsf <;> simp [headEventsAt, hf2] at hm
  · rcases hfw with rfl | rfl <;>
      cases hf2 : fsf <;>
        (rw [ht] at hm
         simp [headEventsAt, hf2, contentEv] at hm
         obtain ⟨rfl, rfl, rfl⟩ := hm
         rw [hf2] at ht
         rw [ht]
         simp only [headEventsAt, contentEv, if_true, if_false,
           List.cons_append, List.nil_append, List.append_assoc]
         repeat
           first
           | exact List.nil_sublist _
           | refine List.Sublist.cons₂ _ ?_
           | refine List.Sublist.cons _ ?_)
  · rcases hfw with rfl | rfl <;>
      cases hf2 : fsf <;>
        (rw [ht] at hm
         simp [headEventsAt, hf2, contentEv] at hm
         obtain ⟨rfl, rfl, rfl⟩ := hm
         rw [hf2] at ht
         rw [ht]
         simp only [headEventsAt, contentEv, if_true, if_false,
           List.cons_append, List.nil_append, List.append_assoc]
         repeat
           first
           | exact List.nil_sublist _
           | refine List.Sublist.cons₂ _ ?_
           | refine List.Sublist.cons _ ?_)

/-- The trace of the /pdf handler is empty or is the trace of the render
it performed. -/
theorem postPdf_trace (eng : Engine) (b : PdfRequestBody) :
    (postPdf eng b).2 = [] ∨
    (postPdf eng b).2 = (renderPdfFromHtml eng (pdfArgsOfBody b)).2 := by
  unfold postPdf
  cases hv : htmlInvalid b.html
  · rcases hr : renderPdfFromHtml eng (pdfArgsOfBody b) with ⟨res, tr⟩
    cases res with
    | error e => simp [hr]
    | ok bs =>
      cases hd : headerValueValid (dispoValue (pdfArgsOfBody b).filename) <;>
        simp [hr, hd]
  · simp

/-- The trace of the /pdf-debug handler is empty or is the trace of the
screenshot pipeline it ran. -/
theorem postPdfDebug_trace (eng : Engine) (d : DebugRequestBody) :
    (postPdfDebug eng d).2 = [] ∨
    (postPdfDebug eng d).2 =
      (renderDebugScreenshot eng (jsToString d.html) d.baseURL
        (d.forceSystemFonts.getD false)).2 := by
  unfold postPdfDebug
  cases hv : htmlInvalid d.html
  · rcases hr : renderDebugScreenshot eng (jsToString d.html) d.baseURL
        (d.forceSystemFonts.getD false) with ⟨res, tr⟩
    cases res <;> simp [hr]
  · simp

/-- C1: in every render of the gateway, on the PDF path (used by /pdf
and /selftest) and on the screenshot path (/pdf-debug), the visibility
override is injected before the HTML content is loaded; the system-font
override is additionally injected, between the visibility override and
the content load, exactly when forceSystemFonts is set; and a request
whose forceSystemFonts field is absent defaults to false, injecting no
font override. -/
theorem visibility_and_font_overrides (eng : Engine) (args : RenderArgs)
    (html : String) (bu : Option String) (fsf : Bool)
    (b : PdfRequestBody) (d : DebugRequestBody) :
    (∀ h wu tm, Event.contentSet h wu tm ∈ (renderPdfFromHtml eng args).2 →
      (Event.styleInjected VISIBILITY_CSS ::
        ((if args.forceSystemFonts then [Event.styleInjected SYSTEM_FONT_CSS]
          else []) ++ [Event.contentSet h wu tm])).Sublist
        (renderPdfFromHtml eng args).2) ∧
    (Event.styleInjected SYSTEM_FONT_CSS ∈ (renderPdfFromHtml eng args).2 →
      args.forceSystemFonts = true) ∧
    (∀ h wu tm, Event.contentSet h wu tm ∈
        (renderDebugScreenshot eng html bu fsf).2 →
      (Event.styleInjected VISIBILITY_CSS ::
        ((if fsf then [Event.styleInjected SYSTEM_FONT_CSS] else []) ++
          [Event.contentSet h wu tm])).Sublist
        (renderDebugScreenshot eng html bu fsf).2) ∧
    (Event.styleInjected SYSTEM_FONT_CSS ∈
        (renderDebugScreenshot eng html bu fsf).2 → fsf = true) ∧
    (b.forceSystemFonts = none →
      Event.styleInjected SYSTEM_FONT_CSS ∉ (postPdf eng b).2) ∧
    (d.forceSystemFonts = none →
      Event.styleInjected SYSTEM_FONT_CSS ∉ (postPdfDebug eng d).2) := by
  refine ⟨?_, ?_, ?_, ?_, ?_, ?_⟩
  · intro h wu tm hm; exact render_content_sublist eng args h wu tm hm
  · exact render_sys_mem eng args
  · intro h wu tm hm; exact debug_content_sublist eng html bu fsf h wu tm hm
  · exact debug_sys_mem eng html bu fsf
  · intro hn hm
    rcases postPdf_trace eng b with h0 | h0
    · rw [h0] at hm; simp at hm
    · rw [h0] at hm
      have hflag := render_sys_mem eng (pdfArgsOfBody b) hm
      simp [pdfArgsOfBody, hn] at hflag
  · intro hn hm
    rcases postPdfDebug_trace eng d with h0 | h0
    · rw [h0] at hm; simp at hm
    · rw [h0] at hm
      have hflag := debug_sys_mem eng (jsToString d.html) d.baseURL
        (d.forceSystemFonts.getD false) hm
      simp [hn] at hflag

theorem visibility_and_font_overrides_witness :
    (Event.styleInjected VISIBILITY_CSS ::
      ((if sampleFontArgs.forceSystemFonts then
          [Event.styleInjected SYSTEM_FONT_CSS] else []) ++
        [Event.contentSet "<p>x</p>" "networkidle" 30000])).Sublist
      (renderPdfFromHtml okEngine sampleFontArgs).2 :=
  (visibility_and_font_overrides okEngine sampleFontArgs "<p>x</p>" none false
    sampleBody emptyDebugBody).1 "<p>x</p>" "networkidle" 30000 (by decide)

theorem pdfOpts_def (args : RenderArgs) :
    ({ format := args.format, printBackground := true,
       preferCSSPageSize := true, margin := resolveMargin args.margin,
       displayHeaderFooter := false } : PdfOptions) = pdfOpts args := rfl

/-- The result of the render tail depends only on the content load and
the print step; the font-readiness wait never changes it. -/
theorem renderTail_fst (eng : Engine) (args : RenderArgs) (acc : List Event) :
    (renderTail eng args acc).1 =
      match eng.setContent args.html "networkidle" 30000 with
      | Except.error e => Except.error e
      | Except.ok _ => eng.printPdf (pdfOpts args) := by
  unfold renderTail tryStep
  cases hc : eng.setContent args.html "networkidle" 30000 with
  | error e => simp
  | ok u =>
    cases u
    simp only [pdfOpts_def]
    cases hfr : eng.fontsReady <;>
      cases hp : eng.printPdf (pdfOpts args) <;> simp [hfr, hp]

/-- Changing only the font-readiness behavior of the engine never
changes the result of a PDF render. -/
theorem render_fst_eq_fonts (eng : Engine) (f : Except String Unit)
    (args : RenderArgs) :
    (renderPdfFromHtml { eng with fontsReady := f } args).1 =
    (renderPdfFromHtml eng args).1 := by
  unfold renderPdfFromHtml tryStep
  dsimp only
  cases hl : eng.launch with
  | error e => rfl
  | ok u =>
    cases u
    cases hn : eng.newPage args.baseURL with
    | error e => rfl
    | ok u2 =>
      cases u2
      cases hemu : eng.emulateMedia "screen" with
      | error e => rfl
      | ok u3 =>
        cases u3
        cases hvv : eng.addStyle VISIBILITY_CSS with
        | error e => rfl
        | ok u4 =>
          cases u4
          cases hff : args.forceSystemFonts with
          | false =>
            rw [if_neg (by simp), if_neg (by simp), renderTail_fst,
              renderTail_fst]
          | true =>
            rw [if_pos rfl, if_pos rfl]
            cases hss : eng.addStyle SYSTEM_FONT_CSS with
            | error e => rfl
            | ok u5 =>
              cases u5
              rw [renderTail_fst, renderTail_fst]

/-- C7: every content load waits for networkidle with a 30000 ms
timeout; a content-load failure fails the whole render; and the
font-readiness wait is best effort: its outcome never changes the result
of the render. -/
theorem content_wait_fixed_fonts_best_effort (eng : Engine)
    (args : RenderArgs) (e : String) (f1 f2 : Except String Unit) :
    (∀ h wu tm, Event.contentSet h wu tm ∈ (renderPdfFromHtml eng args).2 →
      wu = "networkidle" ∧ tm = 30000) ∧
    (eng.launch = Except.ok () → eng.newPage args.baseURL = Except.ok () →
      eng.emulateMedia "screen" = Except.ok () →
      (∀ css, eng.addStyle css = Except.ok ()) →
      eng.setContent args.html "networkidle" 30000 = Except.error e →
      (renderPdfFromHtml eng args).1 = Except.error e) ∧
    (renderPdfFromHtml { eng with fontsReady := f1 } args).1 =
      (renderPdfFromHtml { eng with fontsReady := f2 } args).1 := by
  refine ⟨?_, ?_, ?_⟩
  · intro h wu tm hm
    rcases render_cases eng args with
      ⟨e2, _, ht⟩ | ⟨e2, _, ht⟩ | ⟨e2, _, ht⟩ | ⟨e2, _, ht⟩ | ⟨_, e2, _, ht⟩ |
      ⟨e2, _, ht⟩ | ⟨e2, fw, _, _, hfw, ht⟩ | ⟨bs, fw, _, _, hfw, ht⟩
    · rw [ht] at hm; simp at hm
    · rw [ht] at hm; simp at hm
    · rw [ht] at hm; simp at hm
    · rw [ht] at hm; simp at hm
    · rw [ht] at hm; simp at hm
    · rw [ht] at hm
      cases hf2 : args.forceSystemFonts <;> simp [headEventsAt, hf2] at hm
    · rcases hfw with rfl | rfl <;> rw [ht] at hm <;>
        cases hf2 : args.forceSystemFonts <;>
          (simp [headEventsAt, hf2, contentEv] at hm
           obtain ⟨_, rfl, rfl⟩ := hm
           exact ⟨rfl, rfl⟩)
    · rcases hfw with rfl | rfl <;> rw [ht] at hm <;>
        cases hf2 : args.forceSystemFonts <;>
          (simp [headEventsAt, hf2, contentEv] at hm
           obtain ⟨_, rfl, rfl⟩ := hm
           exact ⟨rfl, rfl⟩)
  · intro hl hn hemu hst hsc
    rcases render_cases eng args with
      ⟨e2, hq, ht⟩ | ⟨e2, hq, ht⟩ | ⟨e2, hq, ht⟩ | ⟨e2, hq, ht⟩ |
      ⟨_, e2, hq, ht⟩ | ⟨e2, hq, ht⟩ | ⟨e2, fw, hq, _, _, ht⟩ |
      ⟨bs, fw, hq, _, _, ht⟩
    · rw [hl] at hq; simp at hq
    · rw [hn] at hq; simp at hq
    · rw [hemu] at hq; simp at hq
    · rw [hst VISIBILITY_CSS] at hq; simp at hq
    · rw [hst SYSTEM_FONT_CSS] at hq; simp at hq
    · rw [hsc] at hq
      cases hq
      rw [ht]
    · rw [hsc] at hq; simp at hq
    · rw [hsc] at hq; simp at hq
  · calc (renderPdfFromHtml { eng with fontsReady := f1 } args).1
        = (renderPdfFromHtml eng args).1 := render_fst_eq_fonts eng f1 args
      _ = (renderPdfFromHtml { eng with fontsReady := f2 } args).1 :=
        (render_fst_eq_fonts eng f2 args).symm

theorem content_wait_fixed_fonts_best_effort_witness :
    (renderPdfFromHtml navFailEngine sampleArgs).1 =
      Except.error "Timeout 30000ms exceeded" :=
  (content_wait_fixed_fonts_best_effort navFailEngine sampleArgs
      "Timeout 30000ms exceeded" (Except.ok ()) (Except.ok ())).2.1
    rfl rfl rfl (fun _ => rfl) rfl

/-- A value that is not a nonempty string fails the handler validation
test. -/
theorem htmlInvalid_of (v : Js) (hv : ∀ s, v = Js.str s → s = "") :
    htmlInvalid v = true := by
  cases v with
  | str s =>
    have hs := hv s rfl
    subst hs
    rfl
  | num n => simp [htmlInvalid, jsIsString]
  | bool b => simp [htmlInvalid, jsIsString]
  | null => rfl
  | undef => rfl

/-- C3: a /pdf or /pdf-debug request whose html field is missing, empty
or not a string is answered 400 with the error body, and the engine is
never touched: the trace is empty, in particular no browser is
launched. -/
theorem invalid_html_rejected_without_launch (eng : Engine)
    (b : PdfRequestBody) (d : DebugRequestBody)
    (hb : ∀ s, b.html = Js.str s → s = "")
    (hd : ∀ s, d.html = Js.str s → s = "") :
    (postPdf eng b).1.status = 400 ∧
    (postPdf eng b).1.body = ResponseBody.jsonError invalidHtmlMsg none ∧
    (postPdf eng b).2 = [] ∧
    (postPdfDebug eng d).1.status = 400 ∧
    (postPdfDebug eng d).1.body = ResponseBody.jsonError invalidHtmlMsg none ∧
    (postPdfDebug eng d).2 = [] := by
  have h1 := htmlInvalid_of b.html hb
  have h2 := htmlInvalid_of d.html hd
  simp [postPdf, postPdfDebug, h1, h2]

theorem invalid_html_rejected_without_launch_witness :
    (postPdf okEngine {}).1.status = 400 ∧
    (postPdf okEngine {}).1.body = ResponseBody.jsonError invalidHtmlMsg none ∧
    (postPdf okEngine {}).2 = [] ∧
    (postPdfDebug okEngine emptyDebugBody).1.status = 400 ∧
    (postPdfDebug okEngine emptyDebugBody).1.body =
      ResponseBody.jsonError invalidHtmlMsg none ∧
    (postPdfDebug okEngine emptyDebugBody).2 = [] :=
  invalid_html_rejected_without_launch okEngine {} emptyDebugBody
    (fun _ h => nomatch h)
    (fun s h => by injection h with h2; exact h2.symm)

/-- C4: for a valid /pdf request, every pipeline failure is answered 500
with the fixed error message and the underlying failure message as
details; and the response is all or nothing: either 200 carrying exactly
the rendered bytes, or the single 500 error payload, never both and
never partial output. (A successful render can still end in the error
payload when the header set throws; the error path is the same
collapsed catch.) -/
theorem pdf_failure_propagates_all_or_nothing (eng : Engine)
    (b : PdfRequestBody) (s : String) (hs : b.html = Js.str s)
    (hne : s ≠ "") :
    (∀ e, (renderPdfFromHtml eng (pdfArgsOfBody b)).1 = Except.error e →
      (postPdf eng b).1.status = 500 ∧
      (postPdf eng b).1.body =
        ResponseBody.jsonError "PDF rendering failed" (some e)) ∧
    ((∃ bs, (postPdf eng b).1.status = 200 ∧
        (postPdf eng b).1.body = ResponseBody.bytes bs ∧
        (renderPdfFromHtml eng (pdfArgsOfBody b)).1 = Except.ok bs) ∨
      (∃ e, (postPdf eng b).1.status = 500 ∧
        (postPdf eng b).1.body =
          ResponseBody.jsonError "PDF rendering failed" (some e))) := by
  have hv : htmlInvalid b.html = false := by
    rw [hs]
    have hie : s.isEmpty = false := by
      cases hie2 : s.isEmpty with
      | false => rfl
      | true => exact absurd ((String.isEmpty_iff s).1 hie2) hne
    simp [htmlInvalid, jsTruthy, jsIsString, hie]
  rcases hr : renderPdfFromHtml eng (pdfArgsOfBody b) with ⟨res, tr⟩
  constructor
  · intro e he
    cases res with
    | ok bs => simp at he
    | error e2 =>
      simp at he
      subst he
      simp [postPdf, hv, hr]
  · cases res with
    | ok bs =>
      cases hd : headerValueValid (dispoValue (pdfArgsOfBody b).filename) with
      | true =>
        exact Or.inl ⟨bs, by simp [postPdf, hv, hr, hd],
          by simp [postPdf, hv, hr, hd], rfl⟩
      | false =>
        exact Or.inr ⟨invalidHeaderCharMsg "Content-Disposition",
          by simp [postPdf, hv, hr, hd], by simp [postPdf, hv, hr, hd]⟩
    | error e =>
      exact Or.inr ⟨e, by simp [postPdf, hv, hr], by simp [postPdf, hv, hr]⟩

theorem pdf_failure_propagates_all_or_nothing_witness :
    (postPdf navFailEngine sampleBody).1.status = 500 ∧
    (postPdf navFailEngine sampleBody).1.body =
      ResponseBody.jsonError "PDF rendering failed"
        (some "Timeout 30000ms exceeded") :=
  (pdf_failure_propagates_all_or_nothing navFailEngine sampleBody "<p>x</p>"
      rfl (by decide)).1 "Timeout 30000ms exceeded" rfl

/-- The render pipeline never reads the filename: it is not passed to
any engine primitive. -/
theorem render_filename_irrel (eng : Engine) (a : RenderArgs) (f : String) :
    renderPdfFromHtml eng { a with filename := f } =
      renderPdfFromHtml eng a := rfl

/-- C8 counterexample: two /pdf requests identical except for their
filename can get different statuses: a plain filename is answered 200
with the PDF, while a filename holding a carriage return and a line
feed makes the header set throw so the catch answers 500 with the error
payload. -/
theorem filename_changes_status_counterexample :
    (postPdf okEngine plainNameBody).1.status = 200 ∧
    (postPdf okEngine plainNameBody).1.body =
      ResponseBody.bytes [37, 80, 68, 70] ∧
    (postPdf okEngine crlfNameBody).1.status = 500 ∧
    (postPdf okEngine crlfNameBody).1.body =
      ResponseBody.jsonError "PDF rendering failed"
        (some (invalidHeaderCharMsg "Content-Disposition")) := by decide

/-- C8 amended: the filename never reaches the render pipeline, so the
engine trace, and with it the render work done, is identical across
filenames; and whenever both filenames interpolate to header values the
header set accepts, the status, content type and body are identical as
well, only the Content-Disposition header differing. A filename
interpolating to a rejected header value (carriage return or line feed)
instead turns that request into the 500 error payload. -/
theorem filename_trace_invariant_header_valid_same_response (eng : Engine)
    (b : PdfRequestBody) (f1 f2 : Option String) :
    ((postPdf eng { b with filename := f1 }).2 =
      (postPdf eng { b with filename := f2 }).2) ∧
    (headerValueValid (dispoValue (f1.getD "document.pdf")) = true →
      headerValueValid (dispoValue (f2.getD "document.pdf")) = true →
      ((postPdf eng { b with filename := f1 }).1.status =
        (postPdf eng { b with filename := f2 }).1.status) ∧
      ((postPdf eng { b with filename := f1 }).1.contentType =
        (postPdf eng { b with filename := f2 }).1.contentType) ∧
      ((postPdf eng { b with filename := f1 }).1.body =
        (postPdf eng { b with filename := f2 }).1.body)) := by
  have hrr : renderPdfFromHtml eng (pdfArgsOfBody { b with filename := f1 }) =
      renderPdfFromHtml eng (pdfArgsOfBody { b with filename := f2 }) :=
    (render_filename_irrel eng (pdfArgsOfBody b)
        (f1.getD "document.pdf")).trans
      (render_filename_irrel eng (pdfArgsOfBody b)
        (f2.getD "document.pdf")).symm
  have e1 : (pdfArgsOfBody { b with filename := f1 }).filename =
      f1.getD "document.pdf" := rfl
  have e2 : (pdfArgsOfBody { b with filename := f2 }).filename =
      f2.getD "document.pdf" := rfl
  constructor
  · unfold postPdf
    dsimp only
    cases hvv : htmlInvalid b.html with
    | true => simp
    | false =>
      rw [hrr]
      rcases hE : renderPdfFromHtml eng
          (pdfArgsOfBody { b with filename := f2 }) with ⟨res, tr⟩
      cases res with
      | error e => simp
      | ok bs =>
        cases hd1 : headerValueValid
            (dispoValue (pdfArgsOfBody { b with filename := f1 }).filename) <;>
          cases hd2 : headerValueValid
              (dispoValue (pdfArgsOfBody { b with filename := f2 }).filename) <;>
            simp [hd1, hd2]
  · intro hv1 hv2
    unfold postPdf
    dsimp only
    cases hvv : htmlInvalid b.html with
    | true => simp
    | false =>
      rw [hrr]
      rcases hE : renderPdfFromHtml eng
          (pdfArgsOfBody { b with filename := f2 }) with ⟨res, tr⟩
      cases res with
      | error e => simp
      | ok bs => simp [e1, e2, hv1, hv2]

theorem filename_trace_invariant_header_valid_same_response_witness :
    ((postPdf okEngine { sampleBody with filename := some "a.pdf" }).1.status =
      (postPdf okEngine { sampleBody with filename := none }).1.status) ∧
    ((postPdf okEngine
        { sampleBody with filename := some "a.pdf" }).1.contentType =
      (postPdf okEngine { sampleBody with filename := none }).1.contentType) ∧
    ((postPdf okEngine { sampleBody with filename := some "a.pdf" }).1.body =
      (postPdf okEngine { sampleBody with filename := none }).1.body) :=
  (filename_trace_invariant_header_valid_same_response okEngine sampleBody
      (some "a.pdf") none).2 (by decide) (by decide)

/-- C9: a request whose JSON body is over the 20mb parser limit is
rejected by the body-parsing layer with status 413 before any route
handler runs: the engine trace is empty, so no browser is launched. -/
theorem body_over_limit_rejected_before_handler (eng : Engine)
    (req : RawRequest) (h : JSON_BODY_LIMIT < req.jsonBodyBytes) :
    (handleRequest eng req).1.status = 413 ∧
    (handleRequest eng req).2 = [] := by
  simp [handleRequest, h]

theorem body_over_limit_rejected_before_handler_witness :
    (handleRequest okEngine bigRequest).1.status = 413 ∧
    (handleRequest okEngine bigRequest).2 = [] :=
  body_over_limit_rejected_before_handler okEngine bigRequest (by decide)

/-- C10 counterexample: at a filename holding a carriage return and a
line feed the program produces no successful response and no
Content-Disposition header at all: the header set throws inside the try
and the catch answers 500, refuting the claimed verbatim appearance of
those characters inside the header value. -/
theorem crlf_filename_no_header_counterexample :
    (postPdf okEngine quotedBody).1.status = 500 ∧
    (postPdf okEngine quotedBody).1.contentDisposition = none := by decide

/-- C10 amended: the Content-Disposition value is built by unescaped
verbatim interpolation: every 200 response of /pdf carries exactly the
string inline; filename="<filename>" with the filename unmodified,
double quotes included; but a filename interpolating to a header value
the header set rejects (carriage return or line feed among others)
never yields a successful response: such a request is answered with
status 500 and no Content-Disposition header. -/
theorem disposition_verbatim_or_rejected (eng : Engine)
    (b : PdfRequestBody) :
    ((postPdf eng b).1.status = 200 →
      (postPdf eng b).1.contentDisposition =
        some (dispoValue (b.filename.getD "document.pdf"))) ∧
    (headerValueValid (dispoValue (b.filename.getD "document.pdf")) = false →
      (postPdf eng b).1.contentDisposition = none ∧
      (postPdf eng b).1.status ≠ 200) := by
  have e1 : (pdfArgsOfBody b).filename = b.filename.getD "document.pdf" := rfl
  constructor
  · intro h
    cases hv : htmlInvalid b.html with
    | true => simp [postPdf, hv] at h
    | false =>
      rcases hr : renderPdfFromHtml eng (pdfArgsOfBody b) with ⟨res, tr⟩
      cases res with
      | error e => simp [postPdf, hv, hr] at h
      | ok bs =>
        cases hd : headerValueValid (dispoValue (pdfArgsOfBody b).filename) with
        | false => simp [postPdf, hv, hr, hd] at h
        | true =>
          rw [e1] at hd
          simp [postPdf, hv, hr, e1, hd]
  · intro hbad
    cases hv : htmlInvalid b.html with
    | true => simp [postPdf, hv]
    | false =>
      rcases hr : renderPdfFromHtml eng (pdfArgsOfBody b) with ⟨res, tr⟩
      cases res with
      | error e => simp [postPdf, hv, hr]
      | ok bs => simp [postPdf, hv, hr, e1, hbad]

theorem disposition_verbatim_or_rejected_witness :
    ((postPdf okEngine quoteOnlyBody).1.contentDisposition =
      some (dispoValue (quoteOnlyBody.filename.getD "document.pdf"))) ∧
    ((postPdf okEngine crlfNameBody).1.contentDisposition = none ∧
      (postPdf okEngine crlfNameBody).1.status ≠ 200) :=
  ⟨(disposition_verbatim_or_rejected okEngine quoteOnlyBody).1 (by decide),
   (disposition_verbatim_or_rejected okEngine crlfNameBody).2 (by decide)⟩

end PdfService
